import Mathlib

/-!
Verification development for the data-quality scoring core of
`data-profiling.py` (function `calcular_scores` and the final score
aggregation).  The five criterion evaluators (Completude, Unicidade,
Consistência, Precisão, Integridade) are embedded as pure functions over an
explicit dataframe model: cells are rationals or strings with an explicit
null, Python `round` is round-half-to-even, and pandas quantiles use linear
interpolation.  The seeded random sample taken by the Integrity evaluator
(`.sample(min(100, len), random_state=42)`) is abstracted as an explicit
sampling-function parameter, since it is a fixed deterministic function of
the data for a fixed seed.
-/

namespace DataProfiling

/-- Whitespace characters removed by Python `str.strip()` (ASCII subset). -/
def isPySpace (c : Char) : Bool :=
  c == ' ' || c == '\t' || c == '\n' || c == '\r' || c == '\x0b' || c == '\x0c'

/-- Python `str.strip()`: drop whitespace from both ends. -/
def pyStrip (s : String) : String :=
  ⟨((s.toList.dropWhile isPySpace).reverse.dropWhile isPySpace).reverse⟩

/-- Does `needle` occur as a prefix of `hay`? -/
def subAt : List Char → List Char → Bool
  | [], _ => true
  | _ :: _, [] => false
  | a :: as, b :: bs => a == b && subAt as bs

/-- Does `needle` occur as a contiguous substring of `hay`?  Models Python
`needle in hay`. -/
def hasSub (needle : List Char) : List Char → Bool
  | [] => subAt needle []
  | b :: bs => subAt needle (b :: bs) || hasSub needle bs

/-- Python `k in s` on strings. -/
def strHasKey (k s : String) : Bool := hasSub k.toList s.toList

/-- Python `str.lower()` (ASCII model). -/
def lowerStr (s : String) : String := ⟨s.toList.map Char.toLower⟩

/-- One-or-more digits. -/
def allDigits (cs : List Char) : Bool := !cs.isEmpty && cs.all Char.isDigit

/-- Body of the numeric regex after the optional sign:
digits, optionally followed by one of `.`/`,` and more digits. -/
def numBody (cs : List Char) : Bool :=
  let p := cs.span Char.isDigit
  !p.1.isEmpty &&
    (match p.2 with
     | [] => true
     | c :: rest => (c == '.' || c == ',') && allDigits rest)

/-- The regex used for numeric content in `calcular_scores`:
a full match of a minus sign (optional), digits, and an optional
decimal part separated by a dot or comma. -/
def isNumericStr (s : String) : Bool :=
  match s.toList with
  | '-' :: rest => numBody rest
  | cs => numBody cs

/-- Date separator allowed by the date regex: slash or dash. -/
def isSep (c : Char) : Bool := c == '/' || c == '-'

/-- The date regex used in `calcular_scores`: two digit groups of 2/2/4 or
4/2/2 joined by `/` or `-`; both alternatives are exactly 10 characters. -/
def isDateStr (s : String) : Bool :=
  match s.toList with
  | [a, b, c, d, e, f, g, h, i, j] =>
    (a.isDigit && b.isDigit && isSep c && d.isDigit && e.isDigit && isSep f &&
      g.isDigit && h.isDigit && i.isDigit && j.isDigit) ||
    (a.isDigit && b.isDigit && c.isDigit && d.isDigit && isSep e && f.isDigit &&
      g.isDigit && isSep h && i.isDigit && j.isDigit)
  | _ => false

/-- Python `str.islower()` (ASCII model): at least one letter and no
uppercase letter. -/
def pyIsLower (s : String) : Bool :=
  s.toList.any Char.isAlpha && s.toList.all (fun c => !c.isUpper)

/-- Python `str.isupper()` (ASCII model): at least one letter and no
lowercase letter. -/
def pyIsUpper (s : String) : Bool :=
  s.toList.any Char.isAlpha && s.toList.all (fun c => !c.isLower)

/-- Strip every non-digit character, as `str.replace(r'\D', '')` does. -/
def digitsOnly (s : String) : String := ⟨s.toList.filter Char.isDigit⟩

/-- Python built-in `round` to an integer: round half to even. -/
def pyRound (q : ℚ) : ℤ :=
  let f := Int.floor q
  let r := q - f
  if r < 1 / 2 then f
  else if 1 / 2 < r then f + 1
  else if f % 2 = 0 then f else f + 1

/-- Rounding as in `np.round(x, 1)`: round half to even at one decimal place. -/
def pyRound1 (q : ℚ) : ℚ := (pyRound (q * 10) : ℚ) / 10

/-- Minimum of a list of rationals (`Series.min()` over the non-null
values); `none` for the empty list (pandas NaN). -/
def minQ : List ℚ → Option ℚ
  | [] => none
  | a :: as =>
    match minQ as with
    | none => some a
    | some b => some (min a b)

/-- pandas `Series.quantile(p)` with the default linear interpolation
(`none` on an empty series, which pandas reports as NaN). -/
def quantileQ (xs : List ℚ) (p : ℚ) : Option ℚ :=
  let s := List.insertionSort (· ≤ ·) xs
  if s.length = 0 then none
  else
    let pos := p * ((s.length : ℚ) - 1)
    let i := (Int.floor pos).toNat
    let g := pos - (i : ℚ)
    some (s.getD i 0 + g * (s.getD (i + 1) 0 - s.getD i 0))

/-- A dataframe cell: null (NaN/None), a numeric value together with its
`astype(str)` rendering, a string, or a datetime value with its rendering. -/
inductive CellVal : Type
  | null : CellVal
  | num : ℚ → String → CellVal
  | str : String → CellVal
  | dt : String → CellVal
deriving DecidableEq

/-- Is this cell missing?  (pandas `isnull`). -/
def CellVal.isNull : CellVal → Bool
  | .null => true
  | _ => false

/-- The `astype(str)` form of a non-null cell; `none` when the cell is null (so
`dropna().astype(str)` is a `filterMap` of this). -/
def CellVal.toStr? : CellVal → Option String
  | .null => none
  | .num _ s => some s
  | .str s => some s
  | .dt s => some s

/-- Numeric value of a cell, when it has one. -/
def CellVal.toNum? : CellVal → Option ℚ
  | .num q _ => some q
  | _ => none

/-- The pandas dtype of a column as used by the evaluators. -/
inductive Dtype : Type
  | numeric : Dtype
  | object : Dtype
  | datetime : Dtype
  | other : Dtype
deriving DecidableEq

/-- A named, typed column of cells. -/
structure Column : Type where
  name : String
  dtype : Dtype
  vals : List CellVal
deriving DecidableEq

/-- A dataframe: columns of equal length `nRows`. -/
structure DataFrame : Type where
  cols : List Column
  nRows : ℕ
  hlen : ∀ c ∈ cols, c.vals.length = nRows

/-- Models `serie.dropna().astype(str)` for a column. -/
def dropnaStr (c : Column) : List String := c.vals.filterMap CellVal.toStr?

/-- The non-null numeric values of a column. -/
def numericValsOf (c : Column) : List ℚ := c.vals.filterMap CellVal.toNum?

/-! ## 1. Completude -/

/-- Per-column null fraction: `df.isnull().mean()` entry for one column. -/
def nullFrac (df : DataFrame) (c : Column) : ℚ :=
  ((c.vals.countP CellVal.isNull : ℚ)) / (df.nRows : ℚ)

/-- Source `null_pct[null_pct > 0.3].index.tolist()`. -/
def colCompletudeRuim (df : DataFrame) : List String :=
  (df.cols.filter (fun c => decide (nullFrac df c > 3 / 10))).map Column.name

/-- Source `null_pct.mean()`: the per-column null fractions averaged over all
columns. -/
def meanNullFrac (df : DataFrame) : ℚ :=
  (df.cols.map (nullFrac df)).sum / (df.cols.length : ℚ)

/-- Source `scores["Completude"] = max(1, round((1 - null_pct.mean()) * 100 / 20))`. -/
def completudeScore (df : DataFrame) : ℤ :=
  max 1 (pyRound ((1 - meanNullFrac df) * 100 / 20))

/-! ## 2. Unicidade -/

/-- Row `i` of the dataframe as the list of its cells across columns. -/
def dfRow (df : DataFrame) (i : ℕ) : List CellVal :=
  df.cols.map (fun c => c.vals.getD i CellVal.null)

/-- Models `df.duplicated()` with the default `keep='first'`: row `i` is marked
when an identical earlier row exists. -/
def dupFlags (df : DataFrame) : List Bool :=
  (List.range df.nRows).map
    (fun i => (List.range i).any (fun j => decide (dfRow df j = dfRow df i)))

/-- Source `df.duplicated().mean()`. -/
def dupFrac (df : DataFrame) : ℚ :=
  ((dupFlags df).count true : ℚ) / (df.nRows : ℚ)

/-- The single Unicidade flag message. -/
def dupMsg : String := "⚠️ Muitos registros duplicados"

/-- Unicidade diagnostic: the flag message exactly when the duplicate
fraction exceeds 0.2. -/
def unicidadeDiag (df : DataFrame) : List String :=
  if dupFrac df > 2 / 10 then [dupMsg] else []

/-- Source `scores["Unicidade"] = max(1, round((1 - df.duplicated().mean()) * 100 / 20))`. -/
def unicidadeScore (df : DataFrame) : ℤ :=
  max 1 (pyRound ((1 - dupFrac df) * 100 / 20))

/-! ## 3. Consistência -/

/-- One column of the Consistência loop: `some name` when the column is
appended to `colunas_inconsistentes`, `none` otherwise (including the
`serie.empty` skip). -/
def consistFlagCol (c : Column) : Option String :=
  let valores := (dropnaStr c).map pyStrip
  if valores.isEmpty then none
  else
    match c.dtype with
    | Dtype.numeric =>
      if ((valores.countP (fun s => !isNumericStr s) : ℚ)) / (valores.length : ℚ) > 1 / 10
      then some c.name else none
    | Dtype.datetime =>
      if ((valores.countP (fun s => !isDateStr s) : ℚ)) / (valores.length : ℚ) > 1 / 10
      then some c.name else none
    | Dtype.object =>
      if ((valores.countP isNumericStr : ℚ)) / (valores.length : ℚ) > 1 / 2 ||
         ((valores.countP isDateStr : ℚ)) / (valores.length : ℚ) > 1 / 2
      then some c.name else none
    | Dtype.other => none

/-- The list `colunas_inconsistentes` accumulated over all columns in order. -/
def colunasInconsistentes (df : DataFrame) : List String :=
  df.cols.filterMap consistFlagCol

/-- Source `scores["Consistência"] = max(1, round((1 - flagged/total_columns) * 5))`. -/
def consistenciaScore (df : DataFrame) : ℤ :=
  max 1 (pyRound ((1 - ((colunasInconsistentes df).length : ℚ) / (df.cols.length : ℚ)) * 5))

/-! ## 4. Precisão -/

/-- Source `df.select_dtypes(include=np.number).columns`. -/
def numericColumns (df : DataFrame) : List Column :=
  df.cols.filter (fun c => decide (c.dtype = Dtype.numeric))

/-- The outlier fraction of one numeric column:
`((df[col] < Q1 - 1.5*IQR) | (df[col] > Q3 + 1.5*IQR)).mean()`.
When the column has no non-null values the quantiles are NaN and every
comparison is false, so the fraction is 0. -/
def outlierFrac (df : DataFrame) (c : Column) : ℚ :=
  match quantileQ (numericValsOf c) (1 / 4), quantileQ (numericValsOf c) (3 / 4) with
  | some q1, some q3 =>
    let iqr := q3 - q1
    (((numericValsOf c).countP
        (fun v => decide (v < q1 - 3 / 2 * iqr) || decide (v > q3 + 3 / 2 * iqr)) : ℚ))
      / (df.nRows : ℚ)
  | _, _ => 0

/-- The Precisão loop state: `(outlier_score, outlier_cols)` accumulated
over the numeric columns in order. -/
def precisaoState (df : DataFrame) : ℚ × List String :=
  (numericColumns df).foldl
    (fun acc c =>
      (acc.1 + (1 - outlierFrac df c),
       acc.2 ++ (if outlierFrac df c > 3 / 10 then [c.name] else [])))
    (0, [])

/-- Source `scores["Precisão"]`: 5 when there is no numeric column, otherwise
`max(1, round((outlier_score / len(numeric_cols)) * 5))`. -/
def precisaoScore (df : DataFrame) : ℤ :=
  if (numericColumns df).isEmpty then 5
  else max 1 (pyRound (((precisaoState df).1 / ((numericColumns df).length : ℚ)) * 5))

/-- Precisão diagnostic (`outlier_cols`; stays empty when there is no
numeric column). -/
def precisaoDiag (df : DataFrame) : List String :=
  if (numericColumns df).isEmpty then [] else (precisaoState df).2

/-! ## 5. Integridade -/

/-- Result of the applicable checks on one column:
`(col_checks, col_passes, col_problemas)`. -/
structure CheckRes : Type where
  checks : ℕ
  passes : ℕ
  problems : List String
deriving DecidableEq

/-- Sequential composition of two check blocks on the same column. -/
def CheckRes.app (a b : CheckRes) : CheckRes :=
  ⟨a.checks + b.checks, a.passes + b.passes, a.problems ++ b.problems⟩

/-- Check 1: negative values in should-be-positive numeric columns. -/
def checkNegativos (lowName : String) (c : Column) : CheckRes :=
  if ["valor", "preço", "quantidade", "saldo"].any (fun k => strHasKey k lowName) then
    match minQ (numericValsOf c) with
    | some m =>
      if m < 0 then ⟨1, 0, ["valores negativos indevidos"]⟩ else ⟨1, 1, []⟩
    | none => ⟨1, 1, []⟩
  else ⟨0, 0, []⟩

/-- Check 2: binary columns must only hold values in the set 0/1
(the empty set passes, as `issubset` does). -/
def checkBinario (lowName : String) (c : Column) : CheckRes :=
  if strHasKey "binário" lowName || strHasKey "flag" lowName then
    if (numericValsOf c).all (fun q => decide (q = 0) || decide (q = 1))
    then ⟨1, 1, []⟩
    else ⟨1, 0, ["valores fora de 0/1 em campo binário"]⟩
  else ⟨0, 0, []⟩

/-- Check 3: capitalization, applied to every object column's sample.
The source fails the check when any sampled value is all-lowercase or any
sampled value is all-uppercase. -/
def checkCapital (sample : List String) : CheckRes :=
  if sample.any pyIsLower || sample.any pyIsUpper
  then ⟨1, 0, ["capitalização inconsistente"]⟩
  else ⟨1, 1, []⟩

/-- Check 4: codes and documents.  The id/code branch takes precedence over
the expected-document-length branch; the final `none` case mirrors the
source, where `col_checks` is incremented even when the `elif` chain
appends nothing. -/
def checkCodigos (lowName colName : String) (sample : List String) : CheckRes :=
  if ["cpf", "cnpj", "telefone", "cep", "id", "cod", "cd"].any
      (fun k => strHasKey k lowName) then
    let cleaned := sample.map digitsOnly
    let expectedLen : Option ℕ :=
      if strHasKey "cpf" lowName then some 11
      else if strHasKey "cnpj" lowName then some 14
      else if strHasKey "cep" lowName then some 8
      else if strHasKey "telefone" lowName then some 10
      else none
    if ["id", "cod", "cd"].any (fun k => strHasKey k lowName) then
      if (cleaned.map String.length).dedup.length > 1
      then ⟨1, 0, ["tamanhos inconsistentes em códigos/IDs"]⟩
      else ⟨1, 1, []⟩
    else
      match expectedLen with
      | some L =>
        if cleaned.all (fun s => s.length = L)
        then ⟨1, 1, []⟩
        else ⟨1, 0, ["tamanho incorreto para " ++ colName]⟩
      | none => ⟨1, 0, []⟩
  else ⟨0, 0, []⟩

/-- Check 5: dates stored as text.  With an empty sample the mean of the
match mask is NaN and `NaN < 0.9` is false, so the check passes. -/
def checkDatas (lowName : String) (sample : List String) : CheckRes :=
  if ["data", "dt", "date", "nascimento", "inicio", "fim"].any
      (fun k => strHasKey k lowName) then
    if sample.isEmpty then ⟨1, 1, []⟩
    else if ((sample.countP isDateStr : ℚ)) / (sample.length : ℚ) < 9 / 10
    then ⟨1, 0, ["datas fora do padrão"]⟩
    else ⟨1, 1, []⟩
  else ⟨0, 0, []⟩

/-- All Integridade checks applicable to one column, in source order.
`sampler` abstracts `serie.dropna().astype(str).sample(min(100, n),
random_state=42)`. -/
def integrityCol (sampler : List String → List String) (c : Column) : CheckRes :=
  let lowName := lowerStr c.name
  match c.dtype with
  | Dtype.numeric => (checkNegativos lowName c).app (checkBinario lowName c)
  | Dtype.object =>
    let sample := sampler (dropnaStr c)
    ((checkCapital sample).app (checkCodigos lowName c.name sample)).app
      (checkDatas lowName sample)
  | Dtype.datetime => ⟨1, 1, []⟩
  | Dtype.other => ⟨0, 0, []⟩

/-- The diagnostic entry contributed by a column with problems. -/
def integEntry (c : Column) (r : CheckRes) : List String :=
  if r.problems ≠ [] then [c.name ++ ": " ++ String.intercalate ", " r.problems]
  else []

/-- One iteration of the Integridade loop over
`(integridade_score, total_checks, integridade_detalhes)`. -/
def integStep (sampler : List String → List String)
    (acc : ℚ × ℕ × List String) (c : Column) : ℚ × ℕ × List String :=
  let r := integrityCol sampler c
  if r.checks ≠ 0 then
    (acc.1 + (r.passes : ℚ) / (r.checks : ℚ), acc.2.1 + 1, acc.2.2 ++ integEntry c r)
  else acc

/-- The Integridade loop over all columns. -/
def integState (sampler : List String → List String) (df : DataFrame) :
    ℚ × ℕ × List String :=
  df.cols.foldl (integStep sampler) (0, 0, [])

/-- Source `scores["Integridade"]`: `max(1, round((score/total)*5))` guarded by
`if total_checks else 5`. -/
def integridadeScore (sampler : List String → List String) (df : DataFrame) : ℤ :=
  if (integState sampler df).2.1 = 0 then 5
  else max 1 (pyRound (((integState sampler df).1 / ((integState sampler df).2.1 : ℚ)) * 5))

/-- Source `integridade_detalhes`. -/
def integridadeDiag (sampler : List String → List String) (df : DataFrame) :
    List String :=
  (integState sampler df).2.2

/-! ## Assembled result -/

/-- The five criterion scores. -/
structure Scores : Type where
  completude : ℤ
  unicidade : ℤ
  consistencia : ℤ
  precisao : ℤ
  integridade : ℤ
deriving DecidableEq

/-- The five criterion diagnostics. -/
structure Diags : Type where
  completude : List String
  unicidade : List String
  consistencia : List String
  precisao : List String
  integridade : List String
deriving DecidableEq

/-- Source `calcular_scores(df)`: the `(scores, diagnostico_colunas)` pair. -/
def calcularScores (sampler : List String → List String) (df : DataFrame) :
    Scores × Diags :=
  (⟨completudeScore df, unicidadeScore df, consistenciaScore df,
    precisaoScore df, integridadeScore sampler df⟩,
   ⟨colCompletudeRuim df, unicidadeDiag df, colunasInconsistentes df,
    precisaoDiag df, integridadeDiag sampler df⟩)

/-- Source `score_final = round(np.mean(list(scores.values())), 1)`. -/
def scoreFinal (s : Scores) : ℚ :=
  pyRound1 (((s.completude : ℚ) + (s.unicidade : ℚ) + (s.consistencia : ℚ) +
    (s.precisao : ℚ) + (s.integridade : ℚ)) / 5)

/-- Models `calcular_scores` with its actual Python failure behaviour on degenerate
dataframes: with zero rows or zero columns, every per-column null fraction
(or the column average itself) is NaN, so `round` at the Completude line
raises `ValueError` (and with zero columns the Consistência line would also
divide by `len(df.columns) = 0`); the call does not return.  All other
inputs reach the end of the function. -/
def calcularScoresChecked (sampler : List String → List String) (df : DataFrame) :
    Option (Scores × Diags) :=
  if df.cols.isEmpty ∨ df.nRows = 0 then none
  else some (calcularScores sampler df)

/-! ## Specification-shaped definitions

These re-state the quantities exactly as the specification describes them;
the claim theorems relate them to the source-shaped definitions above. -/

/-- The duplicate fraction as the spec words it: the share of rows for
which an identical earlier row exists. -/
def specDupFrac (df : DataFrame) : ℚ :=
  (((List.range df.nRows).countP
      (fun i => decide (∃ j < i, dfRow df j = dfRow df i))) : ℚ) / (df.nRows : ℚ)

/-- The spec's flagging rule for the Consistência evaluator, with the
percentage thresholds written as integer comparisons. -/
def specConsistFlag (c : Column) : Bool :=
  let vs := (dropnaStr c).map pyStrip
  !vs.isEmpty &&
    match c.dtype with
    | Dtype.numeric => decide (10 * vs.countP (fun s => !isNumericStr s) > vs.length)
    | Dtype.datetime => decide (10 * vs.countP (fun s => !isDateStr s) > vs.length)
    | Dtype.object =>
      decide (2 * vs.countP isNumericStr > vs.length) ||
      decide (2 * vs.countP isDateStr > vs.length)
    | Dtype.other => false

/-- The columns with at least one applicable Integridade check. -/
def checkedCols (sampler : List String → List String) (df : DataFrame) : List Column :=
  df.cols.filter (fun c => decide ((integrityCol sampler c).checks ≠ 0))

/-- Per-column Integridade sub-score, `passes/checks`. -/
def subScore (sampler : List String → List String) (c : Column) : ℚ :=
  ((integrityCol sampler c).passes : ℚ) / ((integrityCol sampler c).checks : ℚ)

/-- The mean of the per-column sub-scores over the checked columns. -/
def integMeanSpec (sampler : List String → List String) (df : DataFrame) : ℚ :=
  ((checkedCols sampler df).map (subScore sampler)).sum /
    ((checkedCols sampler df).length : ℚ)

/-- The Integridade diagnostic as the spec words it: one entry per column
with at least one failed check. -/
def integDiagSpec (sampler : List String → List String) (df : DataFrame) : List String :=
  (df.cols.filter (fun c => decide ((integrityCol sampler c).problems ≠ []))).map
    (fun c => c.name ++ ": " ++ String.intercalate ", " (integrityCol sampler c).problems)

/-! ## Concrete data used to instantiate the theorems -/

/-- A concrete stand-in for the seeded sampler, used only to instantiate
the sampler-parametric theorems at a specific value. -/
def takeSample (xs : List String) : List String := xs.take 100

/-- A small healthy dataframe: one numeric and one textual column, two
distinct rows, no nulls. -/
def dfW : DataFrame :=
  ⟨[⟨"a", Dtype.numeric, [CellVal.num 1 "1", CellVal.num 2 "2"]⟩,
    ⟨"nome", Dtype.object, [CellVal.str "João", CellVal.str "Maria"]⟩], 2, by decide⟩

/-- A dataframe with one column and zero rows. -/
def dfVazio : DataFrame := ⟨[⟨"a", Dtype.numeric, []⟩], 0, by decide⟩

/-- A dataframe with zero columns. -/
def dfSemCols : DataFrame := ⟨[], 0, by simp⟩

/-- A one-column textual dataframe (no numeric columns at all). -/
def dfTexto : DataFrame := ⟨[⟨"nome", Dtype.object, [CellVal.str "João"]⟩], 1, by decide⟩

/-- A textual column whose name holds both an id keyword and a document
keyword, with values whose digit-stripped lengths agree but never equal the
document's expected length. -/
def colIdCpf : Column :=
  ⟨"ID_CPF", Dtype.object, [CellVal.str "123", CellVal.str "456"]⟩

/-! ## Helper lemmas: rounding -/

theorem pyRound_intCast (n : ℤ) : pyRound (n : ℚ) = n := by
  simp only [pyRound, Int.floor_intCast, sub_self]
  norm_num

theorem floor_le_pyRound (q : ℚ) : Int.floor q ≤ pyRound q := by
  simp only [pyRound]
  split_ifs <;> omega

theorem le_pyRound {a : ℤ} {q : ℚ} (h : (a : ℚ) ≤ q) : a ≤ pyRound q :=
  le_trans (Int.le_floor.mpr h) (floor_le_pyRound q)

theorem pyRound_le {b : ℤ} {q : ℚ} (h : q ≤ (b : ℚ)) : pyRound q ≤ b := by
  have hf : Int.floor q ≤ b := by
    have := Int.floor_le_floor h
    simpa using this
  have hfl : (Int.floor q : ℚ) ≤ q := Int.floor_le q
  simp only [pyRound]
  split_ifs with h1 h2 h3
  · exact hf
  · rcases lt_or_eq_of_le hf with h4 | h4
    · omega
    · exfalso
      rw [h4] at h2
      have : q ≤ (Int.floor q : ℚ) := by rw [h4]; exact_mod_cast h
      linarith
  · exact hf
  · rcases lt_or_eq_of_le hf with h4 | h4
    · omega
    · exfalso
      have hr : q - (Int.floor q : ℚ) = 1 / 2 := le_antisymm (not_lt.mp h2) (not_lt.mp h1)
      have : q ≤ (Int.floor q : ℚ) := by rw [h4]; exact_mod_cast h
      linarith

theorem pyRound_eq_zero {q : ℚ} (h0 : 0 ≤ q) (h : q ≤ 1 / 2) : pyRound q = 0 := by
  have hf : Int.floor q = 0 := by
    rw [Int.floor_eq_zero_iff]
    constructor
    · exact h0
    · linarith
  simp only [pyRound, hf, Int.cast_zero, sub_zero]
  split_ifs with h1 h2 h3
  · rfl
  · linarith
  · rfl
  · omega

/-! ## Helper lemmas: fractions and lists -/

theorem natDiv_nonneg (a b : ℕ) : 0 ≤ (a : ℚ) / (b : ℚ) :=
  div_nonneg (by positivity) (by positivity)

theorem natDiv_le_one {a b : ℕ} (h : a ≤ b) : (a : ℚ) / (b : ℚ) ≤ 1 := by
  rcases Nat.eq_zero_or_pos b with hb | hb
  · subst hb
    have : a = 0 := Nat.le_zero.mp h
    subst this
    norm_num
  · rw [div_le_one (by exact_mod_cast hb)]
    exact_mod_cast h

theorem one_div_lt_natDiv_iff {n k d : ℕ} (hd : 0 < d) (hn : 0 < n) :
    (1 : ℚ) / (d : ℚ) < (k : ℚ) / (n : ℚ) ↔ n < d * k := by
  rw [div_lt_div_iff₀ (by exact_mod_cast hd) (by exact_mod_cast hn)]
  rw [one_mul]
  rw [show (k : ℚ) * (d : ℚ) = ((k * d : ℕ) : ℚ) by push_cast; ring]
  rw [Nat.cast_lt]
  rw [Nat.mul_comm k d]

theorem filterMap_ite_eq {α β : Type} (p : α → Bool) (f : α → β) (l : List α) :
    l.filterMap (fun a => if p a then some (f a) else none) = (l.filter p).map f := by
  induction l with
  | nil => rfl
  | cons a l ih =>
    cases h : p a <;> simp [List.filterMap_cons, List.filter_cons, h, ih]

theorem sum_map_nonneg {α : Type} {l : List α} {f : α → ℚ} (h : ∀ a ∈ l, 0 ≤ f a) :
    0 ≤ (l.map f).sum := by
  induction l with
  | nil => simp
  | cons a l ih =>
    simp only [List.map_cons, List.sum_cons]
    have h1 := h a (by simp)
    have h2 := ih (fun b hb => h b (by simp [hb]))
    linarith

theorem sum_map_le_length {α : Type} {l : List α} {f : α → ℚ} (h : ∀ a ∈ l, f a ≤ 1) :
    (l.map f).sum ≤ (l.length : ℚ) := by
  induction l with
  | nil => simp
  | cons a l ih =>
    simp only [List.map_cons, List.sum_cons, List.length_cons]
    have h1 := h a (by simp)
    have h2 := ih (fun b hb => h b (by simp [hb]))
    push_cast
    linarith

/-! ## Claim C1 -/

/-- C1 (code_bug evidence): on a dataframe with zero rows, and on one with
zero columns, `calcular_scores` does not return a result at all — the
Completude step rounds a NaN mean (raising `ValueError`), and with zero
columns the Consistência step would additionally divide by zero — contrary
to the claim that every criterion falls back to a safe default score and
the evaluation completes. -/
theorem empty_dataset_crash :
    calcularScoresChecked takeSample dfVazio = none ∧
    calcularScoresChecked takeSample dfSemCols = none :=
  ⟨rfl, rfl⟩

/-! ## Claim C2 -/

/-- C2 counterexample: a sample holding the single all-lowercase value
"abc" (and hence no all-uppercase value) makes the capitalization check
fail, although the claim says a sample with only one of the two casings
passes. -/
theorem capitalizacao_counterexample :
    checkCapital ["abc"] = ⟨1, 0, ["capitalização inconsistente"]⟩ ∧
    (["abc"] : List String).any pyIsUpper = false := by
  constructor <;> decide

/-- C2 amended: the capitalization check fails — appending the problem
string and granting no pass — if and only if the sample contains at least
one all-lowercase value OR at least one all-uppercase value; it passes
exactly when the sample contains neither. -/
theorem capitalizacao_amended (sample : List String) :
    checkCapital sample =
      if (∃ s ∈ sample, pyIsLower s = true) ∨ (∃ s ∈ sample, pyIsUpper s = true)
      then ⟨1, 0, ["capitalização inconsistente"]⟩
      else ⟨1, 1, []⟩ := by
  simp only [checkCapital]
  by_cases h : (∃ s ∈ sample, pyIsLower s = true) ∨ (∃ s ∈ sample, pyIsUpper s = true)
  · rw [if_pos h, if_pos]
    rw [Bool.or_eq_true, List.any_eq_true, List.any_eq_true]
    exact h
  · rw [if_neg h, if_neg]
    rw [Bool.or_eq_true, List.any_eq_true, List.any_eq_true]
    exact h

theorem capitalizacao_amended_witness :
    checkCapital ["ab"] = ⟨1, 0, ["capitalização inconsistente"]⟩ := by
  rw [capitalizacao_amended]
  decide

/-! ## Claim C9 -/

/-- C9: evaluating the same dataframe twice with the same (fixed-seed)
sampler yields identical results: the evaluation is a pure function of the
dataset and the sampling function, so two runs cannot differ. -/
theorem determinismo_claim (sampler : List String → List String) (df : DataFrame)
    (r₁ r₂ : Scores × Diags)
    (h₁ : r₁ = calcularScores sampler df) (h₂ : r₂ = calcularScores sampler df) :
    r₁ = r₂ :=
  h₁.trans h₂.symm

theorem determinismo_claim_witness :
    calcularScores takeSample dfW = calcularScores takeSample dfW :=
  determinismo_claim takeSample dfW _ _ rfl rfl

/-! ## Claim C4 -/

theorem sum_map_one {α : Type} (l : List α) :
    (l.map (fun _ => (1 : ℚ))).sum = (l.length : ℚ) := by
  induction l with
  | nil => simp
  | cons a l ih => simp only [List.map_cons, List.sum_cons, List.length_cons, ih]; push_cast; ring

/-- C4: for a dataframe with at least one row and one column, the
Completude score is `max(1, round((1 - mean_null_fraction) * 100 / 20))`
with the mean taken over the per-column null fractions, the diagnostic is
exactly the columns whose null fraction exceeds 0.3, a dataframe with no
nulls scores 5, and a dataframe of only nulls scores 1. -/
theorem completude_claim (df : DataFrame) (hr : df.nRows ≠ 0) (hc : df.cols ≠ []) :
    completudeScore df = max 1 (pyRound ((1 - meanNullFrac df) * 100 / 20)) ∧
    colCompletudeRuim df =
      (df.cols.filter (fun c => decide (nullFrac df c > 3 / 10))).map Column.name ∧
    ((∀ c ∈ df.cols, ∀ v ∈ c.vals, v ≠ CellVal.null) → completudeScore df = 5) ∧
    ((∀ c ∈ df.cols, ∀ v ∈ c.vals, v = CellVal.null) → completudeScore df = 1) := by
  refine ⟨rfl, rfl, ?_, ?_⟩
  · intro h
    have hm : meanNullFrac df = 0 := by
      simp only [meanNullFrac]
      have hs : (df.cols.map (nullFrac df)).sum = 0 := by
        apply List.sum_eq_zero
        intro x hx
        rw [List.mem_map] at hx
        obtain ⟨c, hcm, rfl⟩ := hx
        simp only [nullFrac]
        have hz : c.vals.countP CellVal.isNull = 0 := by
          rw [List.countP_eq_zero]
          intro v hv hvn
          apply h c hcm v hv
          cases v with
          | null => rfl
          | num q s => simp [CellVal.isNull] at hvn
          | str s => simp [CellVal.isNull] at hvn
          | dt s => simp [CellVal.isNull] at hvn
        rw [hz]
        norm_num
      rw [hs]
      norm_num
    have harg : (1 - meanNullFrac df) * 100 / 20 = ((5 : ℤ) : ℚ) := by
      rw [hm]; norm_num
    simp only [completudeScore, harg, pyRound_intCast]
    decide
  · intro h
    have hone : ∀ c ∈ df.cols, nullFrac df c = 1 := by
      intro c hcm
      simp only [nullFrac]
      have hcnt : c.vals.countP CellVal.isNull = c.vals.length := by
        rw [List.countP_eq_length]
        intro v hv
        rw [h c hcm v hv]
        rfl
      rw [hcnt, df.hlen c hcm, div_self (by exact_mod_cast hr)]
    have hm : meanNullFrac df = 1 := by
      simp only [meanNullFrac]
      rw [List.map_congr_left hone, sum_map_one]
      rw [div_self]
      have : df.cols.length ≠ 0 := fun h0 => hc (List.length_eq_zero.mp h0)
      exact_mod_cast this
    have harg : (1 - meanNullFrac df) * 100 / 20 = ((0 : ℤ) : ℚ) := by
      rw [hm]; norm_num
    simp only [completudeScore, harg, pyRound_intCast]
    decide

theorem completude_claim_witness : completudeScore dfW = 5 :=
  (completude_claim dfW (by decide) (by decide)).2.2.1 (by decide)

/-! ## Claim C3 -/

theorem dupFrac_eq_spec (df : DataFrame) : dupFrac df = specDupFrac df := by
  simp only [dupFrac, specDupFrac]
  have hnat : (dupFlags df).count true =
      (List.range df.nRows).countP (fun i => decide (∃ j < i, dfRow df j = dfRow df i)) := by
    have h1 : (dupFlags df).count true =
        (dupFlags df).countP (fun b => b == true) := rfl
    rw [h1]
    simp only [dupFlags, List.countP_map]
    apply List.countP_congr
    intro i _
    simp only [Function.comp]
    rw [Bool.eq_iff_iff]
    simp [List.any_eq_true, List.mem_range]
  rw [hnat]

theorem dupFrac_le_one (df : DataFrame) : dupFrac df ≤ 1 := by
  apply natDiv_le_one
  calc (dupFlags df).count true ≤ (dupFlags df).length := List.count_le_length _ _
  _ = df.nRows := by simp [dupFlags]

/-- C3: for a dataframe with at least one row, the Unicidade score is
`max(1, round((1 - duplicate_fraction) * 100 / 20))` where the duplicate
fraction is the share of rows that repeat an earlier row; the diagnostic is
the single flag message exactly when that fraction exceeds 0.2; a dataframe
with pairwise distinct rows scores 5; and once the duplicate fraction
reaches 0.9 (the all-duplicated limit) the score floors at 1. -/
theorem unicidade_claim (df : DataFrame) (hr : df.nRows ≠ 0) :
    unicidadeScore df = max 1 (pyRound ((1 - specDupFrac df) * 100 / 20)) ∧
    (specDupFrac df > 2 / 10 → unicidadeDiag df = [dupMsg]) ∧
    (¬ specDupFrac df > 2 / 10 → unicidadeDiag df = []) ∧
    ((∀ i < df.nRows, ∀ j < i, dfRow df j ≠ dfRow df i) → unicidadeScore df = 5) ∧
    (9 / 10 ≤ specDupFrac df → unicidadeScore df = 1) := by
  have heq := dupFrac_eq_spec df
  refine ⟨?_, ?_, ?_, ?_, ?_⟩
  · simp only [unicidadeScore, heq]
  · intro h
    simp only [unicidadeDiag, heq, if_pos h]
  · intro h
    simp only [unicidadeDiag, heq, if_neg h]
  · intro h
    have hcount : (dupFlags df).count true = 0 := by
      rw [List.count_eq_zero]
      intro hmem
      simp only [dupFlags, List.mem_map] at hmem
      obtain ⟨i, hi, hflag⟩ := hmem
      rw [List.any_eq_true] at hflag
      obtain ⟨j, hj, hjd⟩ := hflag
      rw [decide_eq_true_eq] at hjd
      exact h i (List.mem_range.mp hi) j (List.mem_range.mp hj) hjd
    have hf : dupFrac df = 0 := by
      simp only [dupFrac, hcount]
      norm_num
    have harg : (1 - dupFrac df) * 100 / 20 = ((5 : ℤ) : ℚ) := by
      rw [hf]; norm_num
    simp only [unicidadeScore, harg, pyRound_intCast]
    decide
  · intro h
    rw [← heq] at h
    have h1 := dupFrac_le_one df
    have harg : (1 - dupFrac df) * 100 / 20 = 5 - 5 * dupFrac df := by ring
    have hz : pyRound ((1 - dupFrac df) * 100 / 20) = 0 := by
      rw [harg]
      exact pyRound_eq_zero (by linarith) (by linarith)
    simp only [unicidadeScore, hz]
    decide

theorem unicidade_claim_witness : unicidadeScore dfW = 5 :=
  (unicidade_claim dfW (by decide)).2.2.2.1 (by decide)

/-! ## Claim C5 -/

theorem consistFlagCol_eq (c : Column) :
    consistFlagCol c = if specConsistFlag c then some c.name else none := by
  obtain ⟨nm, dt, vals⟩ := c
  simp only [consistFlagCol, specConsistFlag]
  by_cases he : ((dropnaStr ⟨nm, dt, vals⟩).map pyStrip).isEmpty
  · simp [he]
  · have hne : ((dropnaStr ⟨nm, dt, vals⟩).map pyStrip).isEmpty = false := by
      cases h : ((dropnaStr ⟨nm, dt, vals⟩).map pyStrip).isEmpty
      · rfl
      · exact absurd h he
    have hn : 0 < ((dropnaStr ⟨nm, dt, vals⟩).map pyStrip).length := by
      cases hl : (dropnaStr ⟨nm, dt, vals⟩).map pyStrip with
      | nil => rw [hl] at hne; simp at hne
      | cons a l => simp
    rw [if_neg he]
    cases dt with
    | numeric =>
      simp only [hne, Bool.not_false, Bool.true_and, decide_eq_true_eq, gt_iff_lt]
      exact if_congr (one_div_lt_natDiv_iff (by norm_num) hn) rfl rfl
    | datetime =>
      simp only [hne, Bool.not_false, Bool.true_and, decide_eq_true_eq, gt_iff_lt]
      exact if_congr (one_div_lt_natDiv_iff (by norm_num) hn) rfl rfl
    | object =>
      simp only [hne, Bool.not_false, Bool.true_and, Bool.or_eq_true, decide_eq_true_eq,
        gt_iff_lt]
      exact if_congr
        (or_congr (one_div_lt_natDiv_iff (by norm_num) hn)
          (one_div_lt_natDiv_iff (by norm_num) hn)) rfl rfl
    | other => simp [hne]

theorem colunasInconsistentes_eq (df : DataFrame) :
    colunasInconsistentes df = (df.cols.filter specConsistFlag).map Column.name := by
  simp only [colunasInconsistentes]
  have hfe : consistFlagCol = fun c => if specConsistFlag c then some c.name else none :=
    funext consistFlagCol_eq
  rw [hfe]
  exact filterMap_ite_eq specConsistFlag Column.name df.cols

/-- C5: for a dataframe with at least one column, the Consistência score is
`max(1, round((1 - flagged/total_columns) * 5))`, the diagnostic is exactly
the flagged columns, and a column is flagged precisely per the declared
dtype: numeric with more than 10% of the stringified trimmed non-null
values failing the numeric regex, temporal with more than 10% failing the
date pattern, textual with more than 50% looking numeric or more than 50%
looking like dates; columns with no non-null values are skipped. -/
theorem consistencia_claim (df : DataFrame) (hc : df.cols ≠ []) :
    consistenciaScore df =
      max 1 (pyRound
        ((1 - ((colunasInconsistentes df).length : ℚ) / (df.cols.length : ℚ)) * 5)) ∧
    colunasInconsistentes df = (df.cols.filter specConsistFlag).map Column.name :=
  ⟨rfl, colunasInconsistentes_eq df⟩

theorem consistencia_claim_witness :
    colunasInconsistentes dfW = (dfW.cols.filter specConsistFlag).map Column.name :=
  (consistencia_claim dfW (by decide)).2

/-! ## Claim C7 -/

theorem precisao_fold (df : DataFrame) (l : List Column) (a : ℚ) (d : List String) :
    l.foldl (fun acc c =>
        (acc.1 + (1 - outlierFrac df c),
         acc.2 ++ (if outlierFrac df c > 3 / 10 then [c.name] else []))) (a, d) =
      (a + (l.map (fun c => 1 - outlierFrac df c)).sum,
       d ++ (l.filter (fun c => decide (outlierFrac df c > 3 / 10))).map Column.name) := by
  induction l generalizing a d with
  | nil => simp
  | cons c l ih =>
    simp only [List.foldl_cons]
    rw [ih, List.map_cons, List.sum_cons, List.filter_cons]
    by_cases h : outlierFrac df c > 3 / 10
    · simp [h, add_assoc, List.append_assoc]
    · simp [h, add_assoc]

theorem precisaoState_eq (df : DataFrame) :
    precisaoState df =
      (((numericColumns df).map (fun c => 1 - outlierFrac df c)).sum,
       ((numericColumns df).filter (fun c => decide (outlierFrac df c > 3 / 10))).map
         Column.name) := by
  simp only [precisaoState]
  rw [precisao_fold]
  simp

/-- C7: the Precisão evaluator returns score 5 with an empty diagnostic
when the dataframe has no numeric column; otherwise its score is
`max(1, round(mean over numeric columns of (1 - outlier_fraction) * 5))`
with the outlier fraction taken against the `1.5*IQR` bounds from the 0.25
and 0.75 quantiles, and its diagnostic is exactly the numeric columns whose
own outlier fraction exceeds 0.3. -/
theorem precisao_claim (df : DataFrame) (hr : df.nRows ≠ 0) :
    (numericColumns df = [] → precisaoScore df = 5 ∧ precisaoDiag df = []) ∧
    (numericColumns df ≠ [] →
      precisaoScore df =
        max 1 (pyRound
          ((((numericColumns df).map (fun c => 1 - outlierFrac df c)).sum /
            ((numericColumns df).length : ℚ)) * 5)) ∧
      precisaoDiag df =
        ((numericColumns df).filter (fun c => decide (outlierFrac df c > 3 / 10))).map
          Column.name) := by
  constructor
  · intro h
    exact ⟨by simp [precisaoScore, h], by simp [precisaoDiag, h]⟩
  · intro h
    have hne : (numericColumns df).isEmpty = false := by
      cases hl : numericColumns df with
      | nil => exact absurd hl h
      | cons a l => simp
    constructor
    · simp only [precisaoScore, hne, precisaoState_eq]
      simp
    · simp only [precisaoDiag, hne, precisaoState_eq]
      simp

theorem precisao_claim_witness : precisaoScore dfTexto = 5 ∧ precisaoDiag dfTexto = [] :=
  (precisao_claim dfTexto (by decide)).1 (by decide)

/-! ## Claim C6 -/

theorem checkNegativos_ok (ln : String) (c : Column) :
    ((checkNegativos ln c).checks = 0 → (checkNegativos ln c).problems = []) ∧
    (checkNegativos ln c).passes ≤ (checkNegativos ln c).checks := by
  unfold checkNegativos
  split_ifs with h1
  · cases hm : minQ (numericValsOf c) with
    | none => simp
    | some m =>
      by_cases h2 : m < 0
      · simp [h2]
      · simp [h2]
  · simp

theorem checkBinario_ok (ln : String) (c : Column) :
    ((checkBinario ln c).checks = 0 → (checkBinario ln c).problems = []) ∧
    (checkBinario ln c).passes ≤ (checkBinario ln c).checks := by
  unfold checkBinario
  split_ifs <;> simp

theorem checkCapital_ok (sample : List String) :
    ((checkCapital sample).checks = 0 → (checkCapital sample).problems = []) ∧
    (checkCapital sample).passes ≤ (checkCapital sample).checks := by
  unfold checkCapital
  split_ifs <;> simp

theorem checkCodigos_ok (ln nm : String) (sample : List String) :
    ((checkCodigos ln nm sample).checks = 0 → (checkCodigos ln nm sample).problems = []) ∧
    (checkCodigos ln nm sample).passes ≤ (checkCodigos ln nm sample).checks := by
  unfold checkCodigos
  split_ifs <;> simp <;> (try split_ifs) <;> simp

theorem checkDatas_ok (ln : String) (sample : List String) :
    ((checkDatas ln sample).checks = 0 → (checkDatas ln sample).problems = []) ∧
    (checkDatas ln sample).passes ≤ (checkDatas ln sample).checks := by
  unfold checkDatas
  split_ifs <;> simp

theorem app_ok {a b : CheckRes}
    (ha : (a.checks = 0 → a.problems = []) ∧ a.passes ≤ a.checks)
    (hb : (b.checks = 0 → b.problems = []) ∧ b.passes ≤ b.checks) :
    ((a.app b).checks = 0 → (a.app b).problems = []) ∧
    (a.app b).passes ≤ (a.app b).checks := by
  obtain ⟨ha1, ha2⟩ := ha
  obtain ⟨hb1, hb2⟩ := hb
  constructor
  · intro h
    simp only [CheckRes.app, Nat.add_eq_zero] at h ⊢
    rw [ha1 h.1, hb1 h.2]
    simp
  · simp only [CheckRes.app]
    omega

theorem integrityCol_ok (sampler : List String → List String) (c : Column) :
    ((integrityCol sampler c).checks = 0 → (integrityCol sampler c).problems = []) ∧
    (integrityCol sampler c).passes ≤ (integrityCol sampler c).checks := by
  obtain ⟨nm, dt, vals⟩ := c
  cases dt with
  | numeric => exact app_ok (checkNegativos_ok _ _) (checkBinario_ok _ _)
  | object =>
    exact app_ok (app_ok (checkCapital_ok _) (checkCodigos_ok _ _ _)) (checkDatas_ok _ _)
  | datetime => simp [integrityCol]
  | other => simp [integrityCol]

theorem integ_fold (sampler : List String → List String) (l : List Column)
    (a : ℚ) (b : ℕ) (d : List String) :
    l.foldl (integStep sampler) (a, b, d) =
      (a + ((l.filter (fun c => decide ((integrityCol sampler c).checks ≠ 0))).map
          (subScore sampler)).sum,
       b + (l.filter (fun c => decide ((integrityCol sampler c).checks ≠ 0))).length,
       d ++ (l.filter (fun c => decide ((integrityCol sampler c).problems ≠ []))).map
          (fun c => c.name ++ ": " ++ String.intercalate ", " (integrityCol sampler c).problems)) := by
  induction l generalizing a b d with
  | nil => simp
  | cons c l ih =>
    simp only [List.foldl_cons, integStep, integEntry]
    by_cases h : (integrityCol sampler c).checks ≠ 0
    · rw [if_pos h, ih]
      have hdec : decide ((integrityCol sampler c).checks ≠ 0) = true := decide_eq_true h
      refine Prod.ext ?_ (Prod.ext ?_ ?_)
      · simp only [List.filter_cons, hdec, if_true, List.map_cons, List.sum_cons, subScore]
        ring
      · simp only [List.filter_cons, hdec, if_true, List.length_cons]
        omega
      · by_cases hp : (integrityCol sampler c).problems ≠ []
        · have hpd : decide ((integrityCol sampler c).problems ≠ []) = true :=
            decide_eq_true hp
          rw [if_pos hp]
          simp only [List.filter_cons, hpd, if_true, List.map_cons]
          simp [List.append_assoc]
        · have hpd : decide ((integrityCol sampler c).problems ≠ []) = false :=
            decide_eq_false hp
          rw [if_neg hp]
          simp only [List.filter_cons, hpd, Bool.false_eq_true, if_false, List.append_nil]
    · rw [if_neg h, ih]
      have hp : ¬ (integrityCol sampler c).problems ≠ [] := fun hne =>
        hne ((integrityCol_ok sampler c).1 (not_not.mp h))
      have hd1 : decide ((integrityCol sampler c).checks ≠ 0) = false := decide_eq_false h
      have hd2 : decide ((integrityCol sampler c).problems ≠ []) = false := decide_eq_false hp
      simp only [List.filter_cons, hd1, hd2, Bool.false_eq_true, if_false]

theorem integState_eq (sampler : List String → List String) (df : DataFrame) :
    integState sampler df =
      (((checkedCols sampler df).map (subScore sampler)).sum,
       (checkedCols sampler df).length,
       integDiagSpec sampler df) := by
  simp only [integState, checkedCols, integDiagSpec]
  rw [integ_fold]
  simp

/-- C6: the Integridade score is `max(1, round(mean(per-column
sub-scores) * 5))` where the mean runs over exactly the columns with at
least one applicable check, or 5 when no column has an applicable check;
and its diagnostic lists exactly the columns with at least one failed
check, each rendered as name, colon, and the comma-joined problem
strings. -/
theorem integridade_claim (sampler : List String → List String) (df : DataFrame) :
    integridadeScore sampler df =
      (if checkedCols sampler df = [] then 5
       else max 1 (pyRound (integMeanSpec sampler df * 5))) ∧
    integridadeDiag sampler df = integDiagSpec sampler df := by
  have hs := integState_eq sampler df
  constructor
  · simp only [integridadeScore, hs, integMeanSpec]
    by_cases h : checkedCols sampler df = []
    · simp [h]
    · have hlen : (checkedCols sampler df).length ≠ 0 := by
        simpa [List.length_eq_zero] using h
      rw [if_neg hlen, if_neg h]
  · simp only [integridadeDiag, hs]

theorem integridade_claim_witness : integridadeScore takeSample dfW = 5 := by
  rw [(integridade_claim takeSample dfW).1]
  with_unfolding_all decide

/-! ## Claim C8 -/

theorem score_le_five {x : ℚ} (h : x ≤ 5) : max 1 (pyRound x) ≤ 5 := by
  apply max_le
  · norm_num
  · exact pyRound_le (by push_cast; linarith)

theorem outlierFrac_nonneg (df : DataFrame) (c : Column) : 0 ≤ outlierFrac df c := by
  unfold outlierFrac
  cases h1 : quantileQ (numericValsOf c) (1 / 4) with
  | none => cases h2 : quantileQ (numericValsOf c) (3 / 4) <;> simp
  | some q1 =>
    cases h2 : quantileQ (numericValsOf c) (3 / 4) with
    | none => simp
    | some q3 => simpa using natDiv_nonneg _ _

theorem pyRound1_bounds {q : ℚ} (h1 : 1 ≤ q) (h5 : q ≤ 5) :
    1 ≤ pyRound1 q ∧ pyRound1 q ≤ 5 := by
  unfold pyRound1
  constructor
  · rw [le_div_iff₀ (by norm_num)]
    have h10 : (10 : ℤ) ≤ pyRound (q * 10) := le_pyRound (by push_cast; linarith)
    calc (1 : ℚ) * 10 = ((10 : ℤ) : ℚ) := by norm_num
    _ ≤ (pyRound (q * 10) : ℚ) := by exact_mod_cast h10
  · rw [div_le_iff₀ (by norm_num)]
    have h50 : pyRound (q * 10) ≤ (50 : ℤ) := pyRound_le (by push_cast; linarith)
    calc (pyRound (q * 10) : ℚ) ≤ ((50 : ℤ) : ℚ) := by exact_mod_cast h50
    _ = 5 * 10 := by norm_num

theorem completudeScore_bounds (df : DataFrame) :
    1 ≤ completudeScore df ∧ completudeScore df ≤ 5 := by
  refine ⟨le_max_left 1 _, score_le_five ?_⟩
  have hm : 0 ≤ meanNullFrac df :=
    div_nonneg (sum_map_nonneg (fun c _ => natDiv_nonneg _ _)) (by positivity)
  have harg : (1 - meanNullFrac df) * 100 / 20 = 5 - 5 * meanNullFrac df := by ring
  rw [harg]
  linarith

theorem unicidadeScore_bounds (df : DataFrame) :
    1 ≤ unicidadeScore df ∧ unicidadeScore df ≤ 5 := by
  refine ⟨le_max_left 1 _, score_le_five ?_⟩
  have hm : 0 ≤ dupFrac df := natDiv_nonneg _ _
  have harg : (1 - dupFrac df) * 100 / 20 = 5 - 5 * dupFrac df := by ring
  rw [harg]
  linarith

theorem consistenciaScore_bounds (df : DataFrame) :
    1 ≤ consistenciaScore df ∧ consistenciaScore df ≤ 5 := by
  refine ⟨le_max_left 1 _, score_le_five ?_⟩
  have hm : 0 ≤ ((colunasInconsistentes df).length : ℚ) / (df.cols.length : ℚ) :=
    natDiv_nonneg _ _
  have harg : (1 - ((colunasInconsistentes df).length : ℚ) / (df.cols.length : ℚ)) * 5 =
      5 - 5 * (((colunasInconsistentes df).length : ℚ) / (df.cols.length : ℚ)) := by ring
  rw [harg]
  linarith

theorem precisaoScore_bounds (df : DataFrame) :
    1 ≤ precisaoScore df ∧ precisaoScore df ≤ 5 := by
  unfold precisaoScore
  by_cases h : (numericColumns df).isEmpty
  · rw [if_pos h]
    norm_num
  · rw [if_neg h]
    refine ⟨le_max_left 1 _, score_le_five ?_⟩
    have hlen : 0 < (numericColumns df).length := by
      cases hl : numericColumns df with
      | nil => rw [hl] at h; simp at h
      | cons a l => simp
    have hS : (precisaoState df).1 ≤ ((numericColumns df).length : ℚ) := by
      rw [precisaoState_eq]
      exact sum_map_le_length (fun c _ => by linarith [outlierFrac_nonneg df c])
    have hdiv : (precisaoState df).1 / ((numericColumns df).length : ℚ) ≤ 1 := by
      rw [div_le_one (by exact_mod_cast hlen)]
      exact hS
    linarith

theorem integridadeScore_bounds (sampler : List String → List String) (df : DataFrame) :
    1 ≤ integridadeScore sampler df ∧ integridadeScore sampler df ≤ 5 := by
  unfold integridadeScore
  by_cases h : (integState sampler df).2.1 = 0
  · rw [if_pos h]
    norm_num
  · rw [if_neg h]
    refine ⟨le_max_left 1 _, score_le_five ?_⟩
    rw [integState_eq] at h
    simp only [integState_eq]
    have hlen : 0 < (checkedCols sampler df).length := Nat.pos_of_ne_zero h
    have hS : ((checkedCols sampler df).map (subScore sampler)).sum ≤
        ((checkedCols sampler df).length : ℚ) := by
      apply sum_map_le_length
      intro c _
      exact natDiv_le_one (integrityCol_ok sampler c).2
    have hdiv : ((checkedCols sampler df).map (subScore sampler)).sum /
        ((checkedCols sampler df).length : ℚ) ≤ 1 := by
      rw [div_le_one (by exact_mod_cast hlen)]
      exact hS
    linarith

/-- C8: whenever the evaluation completes (at least one row and one
column), every one of the five criterion scores is an integer between 1 and
5, and the overall score — the mean of the five rounded to one decimal —
lies in the interval from 1.0 to 5.0. -/
theorem score_range_claim (sampler : List String → List String) (df : DataFrame)
    (hr : df.nRows ≠ 0) (hc : df.cols ≠ []) :
    (1 ≤ (calcularScores sampler df).1.completude ∧
      (calcularScores sampler df).1.completude ≤ 5) ∧
    (1 ≤ (calcularScores sampler df).1.unicidade ∧
      (calcularScores sampler df).1.unicidade ≤ 5) ∧
    (1 ≤ (calcularScores sampler df).1.consistencia ∧
      (calcularScores sampler df).1.consistencia ≤ 5) ∧
    (1 ≤ (calcularScores sampler df).1.precisao ∧
      (calcularScores sampler df).1.precisao ≤ 5) ∧
    (1 ≤ (calcularScores sampler df).1.integridade ∧
      (calcularScores sampler df).1.integridade ≤ 5) ∧
    (1 ≤ scoreFinal (calcularScores sampler df).1 ∧
      scoreFinal (calcularScores sampler df).1 ≤ 5) := by
  have h1 := completudeScore_bounds df
  have h2 := unicidadeScore_bounds df
  have h3 := consistenciaScore_bounds df
  have h4 := precisaoScore_bounds df
  have h5 := integridadeScore_bounds sampler df
  refine ⟨h1, h2, h3, h4, h5, ?_⟩
  simp only [calcularScores, scoreFinal]
  have hc1 : (1 : ℚ) ≤ (completudeScore df : ℚ) := by exact_mod_cast h1.1
  have hc1' : (completudeScore df : ℚ) ≤ 5 := by exact_mod_cast h1.2
  have hc2 : (1 : ℚ) ≤ (unicidadeScore df : ℚ) := by exact_mod_cast h2.1
  have hc2' : (unicidadeScore df : ℚ) ≤ 5 := by exact_mod_cast h2.2
  have hc3 : (1 : ℚ) ≤ (consistenciaScore df : ℚ) := by exact_mod_cast h3.1
  have hc3' : (consistenciaScore df : ℚ) ≤ 5 := by exact_mod_cast h3.2
  have hc4 : (1 : ℚ) ≤ (precisaoScore df : ℚ) := by exact_mod_cast h4.1
  have hc4' : (precisaoScore df : ℚ) ≤ 5 := by exact_mod_cast h4.2
  have hc5 : (1 : ℚ) ≤ (integridadeScore sampler df : ℚ) := by exact_mod_cast h5.1
  have hc5' : (integridadeScore sampler df : ℚ) ≤ 5 := by exact_mod_cast h5.2
  exact pyRound1_bounds (by linarith) (by linarith)

theorem score_range_claim_witness :
    1 ≤ (calcularScores takeSample dfW).1.completude :=
  (score_range_claim takeSample dfW (by decide) (by decide)).1.1

/-! ## Claim C10 -/

/-- C10: on a textual column whose lowercased name holds both an id/code
keyword and a document keyword with a known expected length, check 4
reduces to the id/code length-consistency test alone — it fails exactly
when the digit-stripped sampled values show more than one distinct length
and otherwise passes with no problem string, so the expected-digit-length
test (and its "tamanho incorreto" problem) is never applied — and within
the Integridade evaluation of such a column the problems are exactly those
of the capitalization check, this check 4, and the date check. -/
theorem codigos_id_claim (sampler : List String → List String) (c : Column)
    (hdt : c.dtype = Dtype.object)
    (hid : (["id", "cod", "cd"].any fun k => strHasKey k (lowerStr c.name)) = true)
    (hdoc : (["cpf", "cnpj", "cep", "telefone"].any
      fun k => strHasKey k (lowerStr c.name)) = true) :
    checkCodigos (lowerStr c.name) c.name (sampler (dropnaStr c)) =
      (if 1 < (((sampler (dropnaStr c)).map digitsOnly).map String.length).dedup.length
       then ⟨1, 0, ["tamanhos inconsistentes em códigos/IDs"]⟩
       else ⟨1, 1, []⟩) ∧
    (integrityCol sampler c).problems =
      (checkCapital (sampler (dropnaStr c))).problems ++
        (checkCodigos (lowerStr c.name) c.name (sampler (dropnaStr c))).problems ++
        (checkDatas (lowerStr c.name) (sampler (dropnaStr c))).problems := by
  obtain ⟨nm, dt, vals⟩ := c
  simp only at hdt
  subst hdt
  have houter : (["cpf", "cnpj", "telefone", "cep", "id", "cod", "cd"].any
      fun k => strHasKey k (lowerStr nm)) = true := by
    rw [List.any_eq_true] at hid ⊢
    obtain ⟨k, hk, hkey⟩ := hid
    refine ⟨k, ?_, hkey⟩
    simp only [List.mem_cons, List.not_mem_nil, or_false] at hk
    rcases hk with rfl | rfl | rfl <;> simp
  constructor
  · unfold checkCodigos
    simp only [houter, hid, if_true]
  · rfl

theorem codigos_id_claim_witness :
    checkCodigos (lowerStr colIdCpf.name) colIdCpf.name (takeSample (dropnaStr colIdCpf)) =
      ⟨1, 1, []⟩ := by
  rw [(codigos_id_claim takeSample colIdCpf rfl (by decide) (by decide)).1]
  decide

end DataProfiling
